import Mathlib

/-!
Shallow embedding of the Fax-lang runtime support header
(`src/compiler/transpiler/cpp/fax_runtime.hpp`).

The header provides three independent components inside namespace
`fax_std`:

* `Ptr<T>` — a null-checked pointer wrapper ("Checked Indirection").
  A raw `T*` is modelled as `Option α` (`none` is the null pointer).
  A C++ constructor that may `throw` is modelled as a function into
  `Except CppError`; the zero-argument constructor has no throw in its
  body, so it is modelled as always returning `.ok`.
* `Array<T>` — a bounds-checked resizable sequence ("Checked Sequence"),
  inheriting from `std::vector<T>` and overriding `operator[]` (both the
  mutable and the `const` overload) with a bounds check.  The vector's
  element store is modelled as a `List α`; the read overloads become
  `idx` / `idx_const` and a write through the mutable overload becomes
  `set_idx`.
* `println` — a variadic printing utility.  Each argument's textual
  representation (what `operator<<` writes) is modelled as a `String`,
  the variadic pack as a `List String`, and the bytes written to
  standard output as the returned `String`.

Thrown exceptions: `Ptr::Ptr(T*)` throws `std::runtime_error`,
`Array::operator[]` throws `std::out_of_range`.  These two host
exception kinds are the two constructors of `CppError`, each carrying
its `what()` message string.
-/

namespace fax_std

/-- The two host-exception kinds thrown by the runtime header:
`std::runtime_error` (from `Ptr::Ptr(T*)`) and `std::out_of_range`
(from `Array::operator[]`), each carrying its message string. -/
inductive CppError where
  | runtime_error (msg : String)
  | out_of_range (msg : String)
deriving DecidableEq, Repr

/-- The message of the exception thrown on a null `Ptr` construction
(line 51 of the header). -/
def nullMsg : String := "Fax-lang: Null pointer access attempt"

/-- The message of the exception thrown on an out-of-bounds `Array`
access (lines 72 and 78 of the header). -/
def boundsMsg : String := "Fax-lang: Array index out of bounds"

/-- `Ptr<T>`: wraps a raw pointer `T* data`, modelled as `Option α`. -/
structure Ptr (α : Type) where
  data : Option α
deriving DecidableEq, Repr

/-- `Ptr() : data(nullptr) {}` — the default constructor.  Its body
contains no `throw`, so in the `Except` model it always returns `.ok`. -/
def Ptr.mk_default (α : Type) : Except CppError (Ptr α) :=
  .ok ⟨none⟩

/-- `Ptr(T* p) : data(p) { if (!p) throw std::runtime_error(...); }` —
the pointer-taking constructor: throws on null, otherwise stores `p`. -/
def Ptr.mk_checked {α : Type} (p : Option α) : Except CppError (Ptr α) :=
  match p with
  | none => .error (.runtime_error nullMsg)
  | some _ => .ok ⟨p⟩

/-- `T& operator*() { return *data; }` — dereference.  Dereferencing a
null pointer is undefined in the host language; the model returns the
referent when one is held and `none` otherwise. -/
def Ptr.deref {α : Type} (p : Ptr α) : Option α :=
  p.data

/-- `T* get() { return data; }` — the raw pointer. -/
def Ptr.get {α : Type} (p : Ptr α) : Option α :=
  p.data

/-- `bool is_null() const { return data == nullptr; }` -/
def Ptr.is_null {α : Type} (p : Ptr α) : Bool :=
  p.data.isNone

/-- `Array<T> : public std::vector<T>` — the vector's element store,
in order, modelled as a `List α`. -/
structure Array (α : Type) where
  elems : List α
deriving DecidableEq, Repr

/-- `this->size()` of the underlying vector. -/
def Array.size {α : Type} (a : Array α) : Nat :=
  a.elems.length

/-- `T& operator[](size_t index)` used for reading: checks
`index >= this->size()` and throws `std::out_of_range`, otherwise
returns the element at `index`. -/
def Array.idx {α : Type} (a : Array α) (i : Nat) : Except CppError α :=
  if h : a.elems.length ≤ i then
    .error (.out_of_range boundsMsg)
  else
    .ok (a.elems.get ⟨i, Nat.lt_of_not_le h⟩)

/-- `const T& operator[](size_t index) const` — the read-only overload,
with the identical bounds check. -/
def Array.idx_const {α : Type} (a : Array α) (i : Nat) : Except CppError α :=
  if h : a.elems.length ≤ i then
    .error (.out_of_range boundsMsg)
  else
    .ok (a.elems.get ⟨i, Nat.lt_of_not_le h⟩)

/-- A write `a[i] = v` through the mutable `operator[]`: the same bounds
check runs first (throwing leaves the vector untouched), then the
returned reference is assigned, replacing exactly position `i`. -/
def Array.set_idx {α : Type} (a : Array α) (i : Nat) (v : α) :
    Except CppError (Array α) :=
  if a.elems.length ≤ i then
    .error (.out_of_range boundsMsg)
  else
    .ok ⟨a.elems.set i v⟩

/-- `push_back` inherited from `std::vector<T>`: append one element. -/
def Array.push_back {α : Type} (a : Array α) (v : α) : Array α :=
  ⟨a.elems ++ [v]⟩

/-- The empty vector (default construction of `Array<T>`). -/
def Array.empty (α : Type) : Array α :=
  ⟨[]⟩

/-- Appending a list of values one by one via `push_back`. -/
def Array.push_all {α : Type} (a : Array α) (vs : List α) : Array α :=
  vs.foldl Array.push_back a

/-- The variadic `println(T first, Args... args)` body after `first`
has been printed: prints `" "` and recurses while arguments remain,
prints the newline from `std::endl` when the pack is exhausted. -/
def println_go : String → List String → String
  | x, [] => x ++ "\n"
  | x, y :: ys => x ++ " " ++ println_go y ys

/-- `println` over the rendered argument list: the zero-argument inline
overload prints only `std::endl`; the variadic template prints the
first argument and continues with `println_go`. -/
def println : List String → String
  | [] => "\n"
  | x :: xs => println_go x xs

/-- `print_item(const T& val) { std::cout << val; }` — writes exactly
the argument's rendering. -/
def print_item (s : String) : String :=
  s

/-- The output the spec (§4.3) requires of `println`, written from the
spec's words for comparison with the code model: each argument's
representation in order, "a separator before every element except the
first" (folded in from the first element), and "the terminator after
the last (or immediately, if the list is empty)". -/
def spec_println_output (args : List String) : String :=
  (match args with
   | [] => ""
   | x :: xs => xs.foldl (fun acc y => acc ++ " " ++ y) x) ++ "\n"

/-! ## Helper lemmas -/

/-- Concatenation of strings is associative. -/
theorem string_append_assoc (a b c : String) : a ++ b ++ c = a ++ (b ++ c) := by
  apply String.ext
  show (a ++ b ++ c).data = (a ++ (b ++ c)).data
  simp

/-- An in-bounds read through the mutable `operator[]` returns the
element at the requested position. -/
theorem idx_ok {α : Type} (s : Array α) (i : Nat) (h : i < s.elems.length) :
    s.idx i = .ok (s.elems.get ⟨i, h⟩) := by
  simp only [Array.idx]
  rw [dif_neg (Nat.not_le.mpr h)]

/-- An in-bounds read through the `const` `operator[]` returns the
element at the requested position. -/
theorem idx_const_ok {α : Type} (s : Array α) (i : Nat) (h : i < s.elems.length) :
    s.idx_const i = .ok (s.elems.get ⟨i, h⟩) := by
  simp only [Array.idx_const]
  rw [dif_neg (Nat.not_le.mpr h)]

/-- `push_all` appends its argument list to the element store. -/
theorem push_all_elems {α : Type} (vs : List α) (s : Array α) :
    (s.push_all vs).elems = s.elems ++ vs := by
  induction vs generalizing s with
  | nil => simp [Array.push_all]
  | cons v vs ih =>
      show ((s.push_back v).push_all vs).elems = s.elems ++ v :: vs
      rw [ih]
      simp [Array.push_back]

/-- `push_all` starting from the empty vector builds exactly the
argument list. -/
theorem push_all_empty {α : Type} (vs : List α) :
    (Array.empty α).push_all vs = ⟨vs⟩ := by
  have h := push_all_elems vs (Array.empty α)
  cases hv : (Array.empty α).push_all vs
  simp only [hv] at h
  simp only [h]
  rfl

/-- A prefix already emitted commutes into the separator fold. -/
theorem foldl_sep_pull (ys : List String) (a b : String) :
    b ++ ys.foldl (fun acc y => acc ++ " " ++ y) a =
      ys.foldl (fun acc y => acc ++ " " ++ y) (b ++ a) := by
  induction ys generalizing a with
  | nil => rfl
  | cons y ys ih =>
      show b ++ ys.foldl (fun acc y => acc ++ " " ++ y) (a ++ " " ++ y) =
        ys.foldl (fun acc y => acc ++ " " ++ y) (b ++ a ++ " " ++ y)
      rw [ih, string_append_assoc b a " ", string_append_assoc b (a ++ " ") y]

/-- The recursive variadic body emits the separator-folded arguments
followed by one newline. -/
theorem println_go_eq (xs : List String) (x : String) :
    println_go x xs = xs.foldl (fun acc y => acc ++ " " ++ y) x ++ "\n" := by
  induction xs generalizing x with
  | nil => rfl
  | cons y ys ih =>
      show x ++ " " ++ println_go y ys =
        ys.foldl (fun acc y => acc ++ " " ++ y) (x ++ " " ++ y) ++ "\n"
      rw [ih, ← foldl_sep_pull, ← string_append_assoc]

/-! ## Claim theorems -/

/-- C1: constructing a `Ptr` from a null pointer throws the
`std::runtime_error` carrying the null-access message; the construction
returns an error, so no `Ptr` value is produced (the `Except` result
has no `.ok` payload). -/
theorem ptr_null_construction_fails (α : Type) :
    Ptr.mk_checked (none : Option α) = .error (.runtime_error nullMsg) :=
  rfl

/-- C2: for an index at or past the current length, reads through both
`operator[]` overloads and a write through the mutable overload all
throw `std::out_of_range` with the bounds message; the failed write
returns an error carrying no updated vector, so the sequence is
unmodified. -/
theorem array_oob_access_fails {α : Type} (s : Array α) (i : Nat) (v : α)
    (h : s.size ≤ i) :
    s.idx i = .error (.out_of_range boundsMsg) ∧
    s.idx_const i = .error (.out_of_range boundsMsg) ∧
    s.set_idx i v = .error (.out_of_range boundsMsg) := by
  have h' : s.elems.length ≤ i := h
  refine ⟨?_, ?_, ?_⟩
  · simp only [Array.idx]
    rw [dif_pos h']
  · simp only [Array.idx_const]
    rw [dif_pos h']
  · simp only [Array.set_idx]
    rw [if_pos h']

/-- Witness for C2 at the concrete vector `[1, 2]` and index `5`. -/
theorem array_oob_access_fails_witness :
    (Array.mk [1, 2] : Array Nat).idx 5 = .error (.out_of_range boundsMsg) ∧
    (Array.mk [1, 2] : Array Nat).idx_const 5 = .error (.out_of_range boundsMsg) ∧
    (Array.mk [1, 2] : Array Nat).set_idx 5 0 = .error (.out_of_range boundsMsg) :=
  array_oob_access_fails (Array.mk [1, 2]) 5 0 (by decide)

/-- C3: constructing a `Ptr` from a non-null pointer succeeds with a
wrapper holding that pointer, and dereferencing the wrapper yields the
original referent's value. -/
theorem ptr_nonnull_construction_derefs {α : Type} (v : α) :
    Ptr.mk_checked (some v) = .ok ⟨some v⟩ ∧
    Ptr.deref (⟨some v⟩ : Ptr α) = some v :=
  ⟨rfl, rfl⟩

/-- C4: for an in-bounds index, both `operator[]` overloads return the
element at that position of the insertion-ordered store, and a write
replaces exactly position `i`: the result keeps the first `i` elements,
holds `v` at position `i`, and keeps the remaining elements. -/
theorem array_inbounds_read_write {α : Type} (s : Array α) (i : Nat) (v : α)
    (h : i < s.size) :
    s.idx i = .ok (s.elems.get ⟨i, h⟩) ∧
    s.idx_const i = .ok (s.elems.get ⟨i, h⟩) ∧
    s.set_idx i v = .ok ⟨s.elems.take i ++ v :: s.elems.drop (i + 1)⟩ := by
  have h' : i < s.elems.length := h
  refine ⟨idx_ok s i h', idx_const_ok s i h', ?_⟩
  simp only [Array.set_idx]
  rw [if_neg (Nat.not_le.mpr h')]
  rw [List.set_eq_take_append_cons_drop, if_pos h']

/-- Witness for C4 at the concrete vector `[10, 20, 30]`, index `1`,
written value `99`. -/
theorem array_inbounds_read_write_witness :
    (Array.mk [10, 20, 30] : Array Nat).idx 1 = .ok 20 ∧
    (Array.mk [10, 20, 30] : Array Nat).idx_const 1 = .ok 20 ∧
    (Array.mk [10, 20, 30] : Array Nat).set_idx 1 99 = .ok ⟨[10, 99, 30]⟩ :=
  array_inbounds_read_write (Array.mk [10, 20, 30]) 1 99 (by decide)

/-- C5: for one or more arguments, `println` writes each argument's
representation in order with exactly one space between consecutive
representations and exactly one trailing newline — the output demanded
by the spec's algorithm description. -/
theorem println_nonempty_format (x : String) (xs : List String) :
    println (x :: xs) = spec_println_output (x :: xs) := by
  show println_go x xs = xs.foldl (fun acc y => acc ++ " " ++ y) x ++ "\n"
  exact println_go_eq xs x

/-- C6: `println` with zero arguments writes exactly one newline
character and nothing else. -/
theorem println_empty_newline :
    println [] = "\n" :=
  rfl

/-- C7: appending values one by one to an empty vector and then reading
index `i` returns the `i`-th appended value (append-then-read round
trip). -/
theorem array_append_read_roundtrip {α : Type} (vs : List α) (i : Nat)
    (h : i < vs.length) :
    ((Array.empty α).push_all vs).idx i = .ok (vs.get ⟨i, h⟩) := by
  rw [push_all_empty]
  exact idx_ok ⟨vs⟩ i h

/-- Witness for C7: appending `[1, 2, 3]` then reading index `2`
returns `3`. -/
theorem array_append_read_roundtrip_witness :
    ((Array.empty Nat).push_all [1, 2, 3]).idx 2 = .ok 3 :=
  array_append_read_roundtrip [1, 2, 3] 2 (by decide)

/-- C8: the zero-argument `Ptr` constructor always succeeds (its body
contains no throw, so the model returns `.ok` unconditionally, holding
the null pointer), while the `NullReferenceError` check fires only on
the pointer-taking construction path. -/
theorem ptr_default_construction_succeeds (α : Type) :
    Ptr.mk_default α = .ok ⟨none⟩ ∧
    Ptr.mk_checked (none : Option α) = .error (.runtime_error nullMsg) :=
  ⟨rfl, rfl⟩

/-- C9: the error raised on null construction and the error raised on
out-of-bounds access carry fixed messages naming their violation kinds;
the two exception values differ in kind (`std::runtime_error` versus
`std::out_of_range`) and their messages are distinct strings. -/
theorem error_kinds_distinct {α β : Type} (s : Array β) (i : Nat)
    (h : s.size ≤ i) :
    Ptr.mk_checked (none : Option α) = .error (.runtime_error nullMsg) ∧
    s.idx i = .error (.out_of_range boundsMsg) ∧
    s.idx_const i = .error (.out_of_range boundsMsg) ∧
    CppError.runtime_error nullMsg ≠ CppError.out_of_range boundsMsg ∧
    nullMsg ≠ boundsMsg := by
  have h' : s.elems.length ≤ i := h
  refine ⟨rfl, ?_, ?_, by decide, by decide⟩
  · simp only [Array.idx]
    rw [dif_pos h']
  · simp only [Array.idx_const]
    rw [dif_pos h']

/-- Witness for C9 at the empty vector and index `0`. -/
theorem error_kinds_distinct_witness :
    Ptr.mk_checked (none : Option Nat) = .error (.runtime_error nullMsg) ∧
    (Array.mk [] : Array Nat).idx 0 = .error (.out_of_range boundsMsg) ∧
    (Array.mk [] : Array Nat).idx_const 0 = .error (.out_of_range boundsMsg) ∧
    CppError.runtime_error nullMsg ≠ CppError.out_of_range boundsMsg ∧
    nullMsg ≠ boundsMsg :=
  error_kinds_distinct (Array.mk []) 0 (by decide)

/-- C10: `is_null` reports exactly the held-reference state: a
default-constructed wrapper answers `true` and a wrapper produced by a
successful checked construction answers `false`.  No operation of the
wrapper mutates the held pointer, so the answer never changes. -/
theorem ptr_is_null_reports_state {α : Type} (v : α) (p q : Ptr α)
    (hd : Ptr.mk_default α = .ok p) (hc : Ptr.mk_checked (some v) = .ok q) :
    p.is_null = true ∧ q.is_null = false := by
  simp only [Ptr.mk_default, Except.ok.injEq] at hd
  simp only [Ptr.mk_checked, Except.ok.injEq] at hc
  subst hd
  subst hc
  exact ⟨rfl, rfl⟩

/-- Witness for C10 at the two concrete wrappers over `Nat`. -/
theorem ptr_is_null_reports_state_witness :
    Ptr.is_null (⟨none⟩ : Ptr Nat) = true ∧
    Ptr.is_null (⟨some 0⟩ : Ptr Nat) = false :=
  ptr_is_null_reports_state 0 ⟨none⟩ ⟨some 0⟩ rfl rfl

end fax_std
